import Mathlib

/-!
Verification of the persistence / schema-evolution core of the
maxine-tracker application (`data_store.py`, `models.py`, and the
maintenance / attachment helpers of `ui_main.py`, `ui_editors.py`,
`maxine_mods.py`).

The on-disk documents are JSON; we embed JSON values shallowly.
JSON numbers are modelled as exact rationals (`ℚ`), which conflates
Python's `int`/`float` distinction; wherever a claim depends on
integer-ness we take the integer as an explicit `Option Int`, matching
the in-memory types the code actually produces.  Wall-clock readings
(`now_iso`, `today_str`) are opaque `String` parameters.
-/

/-- A JSON value, as produced by `json.loads`. -/
inductive Json where
  | null
  | bool (b : Bool)
  | num (q : ℚ)
  | str (s : String)
  | arr (xs : List Json)
  | obj (kvs : List (String × Json))
deriving Repr

/-- Dictionary lookup (`raw.get(k)` / `k in raw`): first binding of `k`.
Objects produced by `json.loads` have unique keys. -/
def Json.get? : Json → String → Option Json
  | .obj kvs, k => go kvs k
  | _, _ => none
where go : List (String × Json) → String → Option Json
  | [], _ => none
  | (k', v) :: t, k => if k' = k then some v else go t k

/-- `raw.get(k, dflt)`. -/
def Json.getD (j : Json) (k : String) (dflt : Json) : Json :=
  (j.get? k).getD dflt

/-- `d[k] = v` on a dict: replace the first binding of `k`, else append
(Python dicts keep the position of an existing key and append new ones). -/
def Json.setKey : Json → String → Json → Json
  | .obj kvs, k, v => .obj (go kvs k v)
  | j, _, _ => j
where go : List (String × Json) → String → Json → List (String × Json)
  | [], k, v => [(k, v)]
  | (k', v') :: t, k, v => if k' = k then (k, v) :: t else (k', v') :: go t k v

/-- `d.setdefault(k, v)`: insert only when the key is absent (a key that is
present with value `None` is kept). -/
def Json.setdefault (j : Json) (k : String) (v : Json) : Json :=
  match j.get? k with
  | some _ => j
  | none => j.setKey k v

/-- Remove every binding of `k` (used to state "equal except for field `k`"). -/
def Json.eraseKey : Json → String → Json
  | .obj kvs, k => .obj (kvs.filter (fun kv => kv.1 ≠ k))
  | j, _ => j

/-- Python truthiness of a JSON value (`bool(x)` / `if not x`). -/
def Json.truthy : Json → Bool
  | .null => false
  | .bool b => b
  | .num q => q ≠ 0
  | .str s => s ≠ ""
  | .arr xs => !xs.isEmpty
  | .obj kvs => !kvs.isEmpty

def Json.isObj : Json → Bool
  | .obj _ => true
  | _ => false

def Json.isArr : Json → Bool
  | .arr _ => true
  | _ => false

/-! ## Document store (`data_store.py`)

The on-disk file is modelled by `DiskFile`: absent, present-but-rejected
by `json.loads`, or present and parsed to a `Json` value.  `json.dump`
followed by `json.loads` is the identity on the embedded values, so the
file written by a save is modelled as `parsed` of the saved value. -/

/-- State of the document file as seen by `load_data`. -/
inductive DiskFile where
  | missing
  | unparsable
  | parsed (j : Json)

/-- The seeded vehicle of `default_data`. -/
def defaultVehicle : Json :=
  .obj [("id", .str "maxine-06-maxima"),
        ("name", .str "Maxine"),
        ("year", .num 2006),
        ("make", .str "Nissan"),
        ("model", .str "Maxima"),
        ("current_mileage", .null),
        ("items", .arr []),
        ("maintenance", .arr [])]

/-- `default_data()`; `now` is the `now_iso()` reading. -/
def default_data (now : String) : Json :=
  .obj [("schema", .num 1),
        ("active_vehicle_id", .str "maxine-06-maxima"),
        ("vehicles", .arr [defaultVehicle]),
        ("updated_at", .str now)]

/-- `raw.get("schema") == 1`.  Python's `==` identifies `1`, `1.0` and
`True` (JSON numbers are one `ℚ` constructor here, so `1.0` is `num 1`). -/
def schemaIs1 (raw : Json) : Bool :=
  match raw.get? "schema" with
  | some (.num q) => q == 1
  | some (.bool b) => b
  | _ => false

/-- The per-vehicle backfill loop body of `load_data`:
`v.setdefault("current_mileage", None)`, `v.setdefault("items", [])`,
`v.setdefault("maintenance", [])`. -/
def fixVehicle (v : Json) : Json :=
  ((v.setdefault "current_mileage" .null).setdefault "items" (.arr [])).setdefault
    "maintenance" (.arr [])

/-- The `isinstance(raw, dict) and raw.get("schema") == 1` branch of
`load_data`.  The `for v in raw["vehicles"]` loop raises (and the outer
`except` then returns `default_data()`) unless `raw["vehicles"]` is a
list of dicts: iterating a number/bool/null raises `TypeError`, and the
elements obtained from a non-empty string or dict are strings, on which
`.setdefault` raises `AttributeError`. -/
def load_dict (raw : Json) (now : String) : Json :=
  let r1 := ((raw.setdefault "updated_at" (.str now)).setdefault
      "active_vehicle_id" (.str "maxine-06-maxima")).setdefault "vehicles" (.arr [])
  let r2 := if (r1.getD "vehicles" .null).truthy then r1
            else r1.setKey "vehicles" (.arr [defaultVehicle])
  match r2.getD "vehicles" .null with
  | .arr vs =>
      if vs.all Json.isObj then r2.setKey "vehicles" (.arr (vs.map fixVehicle))
      else default_data now
  | _ => default_data now

/-- `load_data()`; `now` is the `now_iso()` reading during the call. -/
def load_data (disk : DiskFile) (now : String) : Json :=
  match disk with
  | .missing => default_data now
  | .unparsable => default_data now
  | .parsed raw =>
      match raw with
      | .arr items =>
          (((default_data now).setKey "vehicles"
              (.arr [defaultVehicle.setKey "items" (.arr items)])).setKey
            "updated_at" (.str now))
      | raw =>
          if raw.isObj && schemaIs1 raw then load_dict raw now
          else default_data now

/-- The in-memory effect of `save_data`: `data["updated_at"] = now_iso()`.
The value subsequently written to disk is this same mapping. -/
def save_data (data : Json) (now : String) : Json :=
  data.setKey "updated_at" (.str now)

/-! ## Primitive normalizers (`models.py`) and Python coercion models

`pyInt?` models `int(s)` on a string: surrounding whitespace is stripped,
an optional sign is followed by a non-empty digit sequence in which
single underscores may separate digits.  `pyFloatStr?` models `float(s)`
restricted to sign + decimal-point literals (exponents, `inf`/`nan` and
underscores are outside the inputs any claim exercises). -/

/-- Python `str.strip` whitespace. -/
def isPySpace (c : Char) : Bool :=
  c = ' ' || c = '\t' || c = '\n' || c = '\x0d' || c = '\x0b' || c = '\x0c'

def pyStripChars (cs : List Char) : List Char :=
  (((cs.dropWhile isPySpace).reverse.dropWhile isPySpace)).reverse

/-- `s.strip()`. -/
def pyStrip (s : String) : String :=
  ⟨pyStripChars s.data⟩

/-- `s.replace(",", "").strip()` from `models.normalize_int` (replacing a
single character by the empty string is a filter). -/
def normalize_int (s : String) : String :=
  pyStrip ⟨s.data.filter (fun c => c ≠ ',')⟩

def digitVal (c : Char) : Nat := c.toNat - 48

/-- Digit run with single underscores allowed between digits. -/
def pyIntGo : Nat → List Char → Option Nat
  | acc, [] => some acc
  | _, ['_'] => none
  | acc, '_' :: c :: cs =>
      if c.isDigit then pyIntGo (10 * acc + digitVal c) cs else none
  | acc, c :: cs =>
      if c.isDigit then pyIntGo (10 * acc + digitVal c) cs else none

def pyIntDigits : List Char → Option Nat
  | c :: cs => if c.isDigit then pyIntGo (digitVal c) cs else none
  | [] => none

/-- `int(s)` for a string `s`. -/
def pyInt? (s : String) : Option Int :=
  match pyStripChars s.data with
  | '+' :: cs => (pyIntDigits cs).map Int.ofNat
  | '-' :: cs => (pyIntDigits cs).map (fun n => -(n : Int))
  | cs => (pyIntDigits cs).map Int.ofNat

/-- Plain digit run (no underscores), for the float literal model. -/
def plainDigits : List Char → Option Nat
  | [] => none
  | cs => if cs.all Char.isDigit then
      some (cs.foldl (fun acc c => 10 * acc + digitVal c) 0) else none

/-- Magnitude of a decimal literal: `d+`, `d+.d*` or `.d+`. -/
def pyFloatMag (cs : List Char) : Option ℚ :=
  let intPart := cs.takeWhile Char.isDigit
  let rest := cs.dropWhile Char.isDigit
  match rest with
  | [] => (plainDigits intPart).map (fun n => (n : ℚ))
  | '.' :: frac =>
      if frac.all Char.isDigit ∧ (intPart ≠ [] ∨ frac ≠ []) then
        some ((intPart.foldl (fun acc c => 10 * acc + digitVal c) 0 : ℚ) +
          (frac.foldl (fun acc c => 10 * acc + digitVal c) 0 : ℚ) / (10 : ℚ) ^ frac.length)
      else none
  | _ => none

/-- `float(s)` for a string `s` (decimal-point literals). -/
def pyFloatStr? (s : String) : Option ℚ :=
  match pyStripChars s.data with
  | '+' :: cs => pyFloatMag cs
  | '-' :: cs => (pyFloatMag cs).map Neg.neg
  | cs => pyFloatMag cs

/-- `float(x)` on a JSON value: numbers pass through, booleans coerce to
`0`/`1`, strings are parsed; `None`, lists and dicts raise. -/
def pyFloat? : Json → Option ℚ
  | .num q => some q
  | .bool b => some (if b then 1 else 0)
  | .str s => pyFloatStr? s
  | _ => none

/-- Truncation toward zero, as `int()` applied to a float. -/
def ratTrunc (q : ℚ) : Int :=
  if 0 ≤ q then q.floor else -((-q).floor)

/-- `int(x)` on a JSON value. -/
def pyIntJson? : Json → Option Int
  | .num q => some (ratTrunc q)
  | .bool b => some (if b then 1 else 0)
  | .str s => pyInt? s
  | _ => none

/-! ## Settings store (`data_store.py`) -/

/-- `DEFAULT_UI_SCALE = 1.45` from `models.py`, as the exact rational
`29/20` (written as a raw fraction so that it kernel-reduces). -/
def DEFAULT_UI_SCALE : ℚ := ⟨29, 20, by decide, by decide⟩

/-- `default_settings()`. -/
def default_settings (now : String) : Json :=
  .obj [("schema", .num 1),
        ("theme", .str "dark"),
        ("ui_scale", .num DEFAULT_UI_SCALE),
        ("font_family", .str "Segoe UI"),
        ("font_size", .num 13),
        ("autosave_ms", .num 20000),
        ("car_mode", .bool false),
        ("updated_at", .str now)]

/-- `d["theme"] not in ("dark", "light")`, negated. -/
def themeOk : Json → Bool
  | .str s => s == "dark" || s == "light"
  | _ => false

/-- The whitelist merge `for k in d.keys(): if k in raw: d[k] = raw[k]`
(the default settings dict has unique keys, so per-key replacement is a
map over its bindings). -/
def mergeKnown (d raw : Json) : Json :=
  match d with
  | .obj kvs => .obj (kvs.map fun kv => (kv.1, raw.getD kv.1 kv.2))
  | j => j

/-- `load_settings()`. -/
def load_settings (disk : DiskFile) (now : String) : Json :=
  match disk with
  | .missing => default_settings now
  | .unparsable => default_settings now
  | .parsed raw =>
      if raw.isObj && schemaIs1 raw then
        let d0 := mergeKnown (default_settings now) raw
        let d1 := d0.setKey "updated_at" (.str now)
        let d2 := if themeOk (d1.getD "theme" .null) then d1
                  else d1.setKey "theme" (.str "dark")
        let d3 := match pyFloat? (d2.getD "ui_scale" .null) with
          | some q => d2.setKey "ui_scale" (.num q)
          | none => d2.setKey "ui_scale" (.num DEFAULT_UI_SCALE)
        let d4 := match pyIntJson? (d3.getD "autosave_ms" .null) with
          | some n => d3.setKey "autosave_ms" (.num n)
          | none => d3.setKey "autosave_ms" (.num 20000)
        d4.setKey "car_mode" (.bool (d4.getD "car_mode" (.bool false)).truthy)
      else default_settings now

/-- The in-memory effect of `save_settings`:
`settings["updated_at"] = now_iso()`. -/
def save_settings (settings : Json) (now : String) : Json :=
  settings.setKey "updated_at" (.str now)

/-! ## Maintenance due calculator (`ui_main._refresh_maintenance_list`)

The displayed strings carry thousands separators; the derived content is
captured structurally: the due mileage, and the remaining cell as either
a plain non-negative remainder or the `OVERDUE abs(...)` framing. -/

/-- The remaining/overdue cell content. -/
inductive Remaining where
  | plain (n : Int)
  | overdue (n : Int)
deriving DecidableEq, Repr

/-- The per-row due computation: guarded by
`str(last_miles).strip() and str(interval).strip()`, then
`due_val = int(normalize_int(last)) + int(normalize_int(interval))`
inside a `try` whose `except` leaves both cells empty; the remaining
cell is filled only when `isinstance(cur, int)`. -/
def compute_due (last_miles interval : String) (cur : Option Int) :
    Option Int × Option Remaining :=
  if pyStrip last_miles ≠ "" ∧ pyStrip interval ≠ "" then
    match pyInt? (normalize_int last_miles), pyInt? (normalize_int interval) with
    | some a, some b =>
        let due := a + b
        let rem := match cur with
          | some c =>
              let r := due - c
              some (if 0 ≤ r then .plain r else .overdue (-r))
          | none => none
        (some due, rem)
    | _, _ => (none, none)
  else (none, none)

/-! ## Mark done (`ui_main.mark_maintenance_done`) -/

/-- Result of marking a task done: the (possibly updated) task and the
user-facing message when the precondition fails. -/
structure MarkResult where
  task : Json
  err : Option String

/-- `mark_maintenance_done` acting on the selected task: if the vehicle's
`current_mileage` is `None` an informational dialog is shown and nothing
is mutated; otherwise `last_date`, `last_miles` (as `str(cur)`) and
`updated_at` are assigned. -/
def mark_maintenance_done (cur : Option Int) (task : Json) (today now : String) :
    MarkResult :=
  match cur with
  | none => ⟨task, some "Set current mileage at the top first."⟩
  | some c =>
      ⟨((task.setKey "last_date" (.str today)).setKey
          "last_miles" (.str (toString c))).setKey "updated_at" (.str now), none⟩

/-! ## Atomic writer (`data_store.safe_write_json`)

The filesystem visible to the writer is the target directory: whether it
exists, the target file's content, and whether the `mkstemp` scratch
file currently exists (`tempfile.mkstemp` picks a fresh name in
`path.parent`, so the temp file never aliases the target).  A scenario
records which of the fallible steps fail on this call. -/

structure WState where
  dirExists : Bool
  target : Option Json
  temp : Bool

/-- Which operations fail during one `safe_write_json` call. -/
structure WScenario where
  mkdirFails : Bool
  mkstempFails : Bool
  dumpFails : Bool
  replaceFails : Bool
  unlinkFails : Bool

/-- `safe_write_json(path, data)`; returns (raised?, resulting state).
`path.parent.mkdir(parents=True, exist_ok=True)`, then `mkstemp` in the
same directory, then `json.dump` to the temp file and `os.replace` over
the target inside `try`, whose `finally` unlinks the temp file if it
still exists, swallowing any unlink error. -/
def safe_write_json (sc : WScenario) (st : WState) (data : Json) : Bool × WState :=
  if sc.mkdirFails then (true, st)
  else
    let st1 : WState := { st with dirExists := true }
    if sc.mkstempFails then (true, st1)
    else
      let st2 : WState := { st1 with temp := true }
      let step : Bool × WState :=
        if sc.dumpFails then (true, st2)
        else if sc.replaceFails then (true, st2)
        else (false, { st2 with target := some data, temp := false })
      let stf : WState :=
        if step.2.temp && !sc.unlinkFails then { step.2 with temp := false } else step.2
      (step.1, stf)

/-- `save_data` including its write: the in-memory mapping is stamped
first, then handed to the atomic writer. -/
def save_data_fs (data : Json) (now : String) (sc : WScenario) (st : WState) :
    Json × Bool × WState :=
  let d := save_data data now
  let w := safe_write_json sc st d
  (d, w.1, w.2)

/-- `save_settings` including its write. -/
def save_settings_fs (settings : Json) (now : String) (sc : WScenario) (st : WState) :
    Json × Bool × WState :=
  let d := save_settings settings now
  let w := safe_write_json sc st d
  (d, w.1, w.2)

/-! ## Attachment path allocator (`ui_editors.unique_dest_path`,
`maxine_mods.unique_dest_path`)

Both copies build `<dest>/<name>_<stamp><ext>` and, while the candidate
exists on disk, retry with `_1`, `_2`, … appended before the extension.
The filesystem is the (finite) set of existing paths, one flat list of
strings; `name`/`ext` are the stem/suffix both call sites extract from
the source path, and `stamp` the formatted timestamp.  The `while` loop
is embedded with explicit fuel `|fs| + 1`, which is proved sufficient:
among `|fs| + 1` pairwise-distinct candidates one is not in `fs`. -/

/-- The decimal digit character `d ↦ '0'+d`. -/
def decDigitChar (d : Nat) : Char := Char.ofNat (48 + d)

/-- Decimal rendering of the retry counter, as `f"{i}"` produces it for
every `i ≥ 1` (the only values the loop interpolates). -/
def decRepr (n : Nat) : String :=
  ⟨((Nat.digits 10 n).map decDigitChar).reverse⟩

/-- The `i`-th candidate path: `i = 0` is the stamped name itself, and
`i ≥ 1` carries the `_{i}` retry suffix. -/
def cand (destFolder name stamp ext : String) : Nat → String
  | 0 => destFolder ++ "/" ++ name ++ "_" ++ stamp ++ ext
  | Nat.succ i =>
      destFolder ++ "/" ++ name ++ "_" ++ stamp ++ "_" ++ decRepr (i + 1) ++ ext

/-- The `while candidate.exists()` loop, fueled. -/
def allocLoop (fs : List String) (c : Nat → String) : Nat → Nat → String
  | 0, i => c i
  | Nat.succ fuel, i => if c i ∈ fs then allocLoop fs c fuel (i + 1) else c i

/-- `unique_dest_path(dest_folder, src_path)` over the path set `fs`. -/
def unique_dest_path (fs : List String) (destFolder name stamp ext : String) :
    String :=
  allocLoop fs (cand destFolder name stamp ext) (fs.length + 1) 0

/-! ## Document predicates used by the claims -/

/-- After loading, a vehicle carries the three backfillable keys. -/
def vehicleBackfilled (v : Json) : Bool :=
  (v.get? "items").isSome && (v.get? "maintenance").isSome &&
    (v.get? "current_mileage").isSome

/-- The loader's document invariant: a non-empty `vehicles` list whose
entries all carry `items`, `maintenance` and `current_mileage`. -/
def docOK (d : Json) : Bool :=
  match d.get? "vehicles" with
  | some (.arr vs) => !vs.isEmpty && vs.all vehicleBackfilled
  | _ => false

/-- A vehicle of a well-formed document in the sense of claim C1: a dict
carrying `id`, `items`, `maintenance` and `current_mileage`. -/
def vehicleKeysOk (v : Json) : Bool :=
  v.isObj && (v.get? "id").isSome && (v.get? "items").isSome &&
    (v.get? "maintenance").isSome && (v.get? "current_mileage").isSome

/-- Claim C1's well-formed Document: a mapping with schema tag `1` and a
non-empty `vehicles` sequence of vehicles carrying the four keys. -/
def wellFormedDoc (D : Json) : Bool :=
  D.isObj &&
  (match D.get? "schema" with
   | some (.num q) => q == 1
   | _ => false) &&
  (match D.get? "vehicles" with
   | some (.arr vs) => !vs.isEmpty && vs.all vehicleKeysOk
   | _ => false)

/-! ## Theorems: the attachment path allocator -/

theorem decDigitChar_inj : ∀ d < 10, ∀ e < 10,
    decDigitChar d = decDigitChar e → d = e := by decide

theorem mapDecDigit_inj : ∀ l₁ l₂ : List Nat, (∀ d ∈ l₁, d < 10) →
    (∀ d ∈ l₂, d < 10) → l₁.map decDigitChar = l₂.map decDigitChar → l₁ = l₂
  | [], [], _, _, _ => rfl
  | [], _ :: _, _, _, h => by simp at h
  | _ :: _, [], _, _, h => by simp at h
  | a :: l₁, b :: l₂, h₁, h₂, h => by
      simp only [List.map_cons, List.cons.injEq] at h
      have hab : a = b :=
        decDigitChar_inj a (h₁ a (by simp)) b (h₂ b (by simp)) h.1
      have := mapDecDigit_inj l₁ l₂ (fun d hd => h₁ d (by simp [hd]))
        (fun d hd => h₂ d (by simp [hd])) h.2
      rw [hab, this]

theorem decRepr_inj {m n : Nat} (h : decRepr m = decRepr n) : m = n := by
  have hdata : ((Nat.digits 10 m).map decDigitChar).reverse
      = ((Nat.digits 10 n).map decDigitChar).reverse := congrArg String.data h
  have hmap := List.reverse_injective hdata
  have hdig := mapDecDigit_inj _ _
    (fun d hd => Nat.digits_lt_base (by norm_num) hd)
    (fun d hd => Nat.digits_lt_base (by norm_num) hd) hmap
  have := congrArg (Nat.ofDigits 10) hdig
  rwa [Nat.ofDigits_digits, Nat.ofDigits_digits] at this

theorem string_ext {s t : String} (h : s.data = t.data) : s = t := by
  cases s
  cases t
  exact congrArg String.mk h

theorem cand_inj (d n s e : String) : ∀ i j, cand d n s e i = cand d n s e j → i = j := by
  have hu : "_".data = ['_'] := rfl
  intro i j h
  have hd := congrArg String.data h
  match i, j with
  | 0, 0 => rfl
  | 0, j + 1 =>
      exfalso
      simp only [cand, String.data_append, List.append_assoc, hu] at hd
      have hlen := congrArg List.length hd
      simp [List.length_append] at hlen
      omega
  | i + 1, 0 =>
      exfalso
      simp only [cand, String.data_append, List.append_assoc, hu] at hd
      have hlen := congrArg List.length hd
      simp [List.length_append] at hlen
      omega
  | i + 1, j + 1 =>
      simp only [cand, String.data_append, List.append_assoc, hu] at hd
      have hr : (decRepr (i + 1)).data = (decRepr (j + 1)).data := by simpa using hd
      have := decRepr_inj (string_ext hr)
      omega

theorem allocLoop_spec (fs : List String) (c : Nat → String) :
    ∀ fuel i, (∃ k, i ≤ k ∧ k < i + fuel ∧ c k ∉ fs) →
    ∃ k, i ≤ k ∧ allocLoop fs c fuel i = c k ∧ c k ∉ fs ∧
      ∀ j, i ≤ j → j < k → c j ∈ fs := by
  intro fuel
  induction fuel with
  | zero =>
      rintro i ⟨k, hik, hk, -⟩
      omega
  | succ fuel ih =>
      rintro i ⟨k, hik, hkf, hknot⟩
      by_cases hmem : c i ∈ fs
      · have hki : k ≠ i := fun hh => hknot (hh ▸ hmem)
        obtain ⟨k', h1, h2, h3, h4⟩ := ih (i + 1) ⟨k, by omega, by omega, hknot⟩
        refine ⟨k', by omega, by simpa [allocLoop, hmem] using h2, h3, ?_⟩
        intro j hij hjk
        rcases Nat.eq_or_lt_of_le hij with hh | hh
        · exact hh ▸ hmem
        · exact h4 j hh hjk
      · exact ⟨i, le_refl i, by simp [allocLoop, hmem], hmem, fun j h1 h2 => by omega⟩

theorem cand_exists_fresh (fs : List String) (c : Nat → String)
    (hinj : ∀ i j, c i = c j → i = j) : ∃ k, k ≤ fs.length ∧ c k ∉ fs := by
  by_contra hcon
  push_neg at hcon
  have hcard : (Finset.range (fs.length + 1)).card ≤ fs.toFinset.card :=
    Finset.card_le_card_of_injOn c
      (fun k hk => by
        simp only [List.mem_toFinset]
        exact hcon k (by simpa [Nat.lt_succ_iff] using hk))
      (fun a _ b _ hab => hinj a b hab)
  have hle := fs.toFinset_card_le
  simp only [Finset.card_range] at hcard
  omega

/-- The allocator returns the first candidate (in suffix order `0,1,2,…`)
that is not an existing path; in particular the result never names an
existing file. -/
theorem unique_dest_path_spec (fs : List String) (d n s e : String) :
    ∃ k, unique_dest_path fs d n s e = cand d n s e k ∧
      unique_dest_path fs d n s e ∉ fs ∧
      ∀ j, j < k → cand d n s e j ∈ fs := by
  obtain ⟨k0, hk0len, hk0⟩ := cand_exists_fresh fs (cand d n s e) (cand_inj d n s e)
  obtain ⟨k, -, h2, h3, h4⟩ := allocLoop_spec fs (cand d n s e) (fs.length + 1) 0
    ⟨k0, Nat.zero_le _, by omega, hk0⟩
  refine ⟨k, h2, ?_, fun j hj => h4 j (Nat.zero_le _) hj⟩
  show allocLoop fs (cand d n s e) (fs.length + 1) 0 ∉ fs
  rw [h2]
  exact h3

/-! ## Lemmas about the dictionary operations -/

theorem Json.get?_go_setKey_go_self : ∀ (l : List (String × Json)) (k : String) (v : Json),
    Json.get?.go (Json.setKey.go l k v) k = some v
  | [], k, v => by simp [Json.setKey.go, Json.get?.go]
  | (k', v') :: t, k, v => by
      by_cases h : k' = k
      · simp [Json.setKey.go, Json.get?.go, h]
      · simp only [Json.setKey.go, if_neg h, Json.get?.go, if_neg h]
        exact Json.get?_go_setKey_go_self t k v

theorem Json.get?_setKey_self (kvs : List (String × Json)) (k : String) (v : Json) :
    ((Json.obj kvs).setKey k v).get? k = some v :=
  Json.get?_go_setKey_go_self kvs k v

theorem Json.get?_go_setKey_go_ne : ∀ (l : List (String × Json)) (k' k : String)
    (v : Json), k' ≠ k →
    Json.get?.go (Json.setKey.go l k v) k' = Json.get?.go l k'
  | [], k', k, v, h => by
      simp [Json.setKey.go, Json.get?.go, Ne.symm h]
  | (k₀, v₀) :: t, k', k, v, h => by
      by_cases h₀ : k₀ = k
      · simp [Json.setKey.go, Json.get?.go, h₀, Ne.symm h]
      · simp only [Json.setKey.go, if_neg h₀, Json.get?.go]
        by_cases h₁ : k₀ = k'
        · simp [h₁]
        · simp only [if_neg h₁]
          exact Json.get?_go_setKey_go_ne t k' k v h

theorem Json.get?_setKey_ne (j : Json) {k' k : String} (h : k' ≠ k) (v : Json) :
    (j.setKey k v).get? k' = j.get? k' := by
  cases j <;> try rfl
  exact Json.get?_go_setKey_go_ne _ k' k v h

theorem Json.setdefault_of_isSome {j : Json} {k : String} (h : (j.get? k).isSome)
    (v : Json) : j.setdefault k v = j := by
  unfold Json.setdefault
  match hh : j.get? k with
  | some w => rfl
  | none => rw [hh] at h; simp at h

theorem Json.get?_setdefault_ne (j : Json) {k' k : String} (h : k' ≠ k) (v : Json) :
    (j.setdefault k v).get? k' = j.get? k' := by
  unfold Json.setdefault
  match hh : j.get? k with
  | some w => rfl
  | none => exact Json.get?_setKey_ne j h v

theorem Json.get?_setdefault_self (kvs : List (String × Json)) (k : String) (v : Json) :
    ((Json.obj kvs).setdefault k v).get? k
      = some ((Json.obj kvs).getD k v) := by
  unfold Json.setdefault Json.getD
  match hh : (Json.obj kvs).get? k with
  | some w => simp [hh]
  | none => simp [hh, Json.get?_setKey_self]

theorem Json.isObj_setKey {j : Json} (h : j.isObj = true) (k : String) (v : Json) :
    (j.setKey k v).isObj = true := by
  cases j <;> simp_all [Json.setKey, Json.isObj]

theorem Json.isObj_setdefault {j : Json} (h : j.isObj = true) (k : String) (v : Json) :
    (j.setdefault k v).isObj = true := by
  unfold Json.setdefault
  match hh : j.get? k with
  | some w => exact h
  | none => exact Json.isObj_setKey h k v

theorem Json.setKey_go_same : ∀ (l : List (String × Json)) (k : String) (v : Json),
    Json.get?.go l k = some v → Json.setKey.go l k v = l
  | [], k, v, h => by simp [Json.get?.go] at h
  | (k₀, v₀) :: t, k, v, h => by
      by_cases h₀ : k₀ = k
      · subst h₀
        have hv : v₀ = v := by simpa [Json.get?.go] using h
        subst hv
        simp [Json.setKey.go]
      · simp only [Json.get?.go, if_neg h₀] at h
        simp only [Json.setKey.go, if_neg h₀, List.cons.injEq, true_and]
        exact Json.setKey_go_same t k v h

theorem Json.setKey_same {j : Json} {k : String} {v : Json} (h : j.get? k = some v) :
    j.setKey k v = j := by
  cases j <;> try rfl
  exact congrArg Json.obj (Json.setKey_go_same _ k v h)

theorem Json.eraseKey_go_setKey : ∀ (l : List (String × Json)) (k : String) (v : Json),
    (Json.setKey.go l k v).filter (fun kv => kv.1 ≠ k)
      = l.filter (fun kv => kv.1 ≠ k)
  | [], k, v => by simp [Json.setKey.go]
  | (k₀, v₀) :: t, k, v => by
      by_cases h₀ : k₀ = k
      · simp [Json.setKey.go, h₀]
      · simp only [Json.setKey.go, if_neg h₀, List.filter_cons]
        rw [Json.eraseKey_go_setKey t k v]

theorem Json.eraseKey_setKey (j : Json) (k : String) (v : Json) :
    (j.setKey k v).eraseKey k = j.eraseKey k := by
  cases j <;> try rfl
  exact congrArg Json.obj (Json.eraseKey_go_setKey _ k v)

theorem Json.get?_setKey_self' {j : Json} (h : j.isObj = true) (k : String) (v : Json) :
    (j.setKey k v).get? k = some v := by
  cases j <;> simp [Json.isObj] at h
  exact Json.get?_setKey_self _ _ _

theorem Json.getD_of_get? {j : Json} {k : String} {d w : Json}
    (h : j.get? k = some w) : j.getD k d = w := by
  unfold Json.getD
  rw [h]
  rfl

theorem Json.isSome_get?_setdefault {j : Json} (h : j.isObj = true) (k : String)
    (v : Json) : ((j.setdefault k v).get? k).isSome = true := by
  cases j <;> simp [Json.isObj] at h
  rw [Json.get?_setdefault_self]
  rfl

theorem docOK_default (now : String) : docOK (default_data now) = true := rfl

theorem vehicleBackfilled_fixVehicle {v : Json} (h : v.isObj = true) :
    vehicleBackfilled (fixVehicle v) = true := by
  have h2 : (v.setdefault "current_mileage" .null).isObj = true :=
    Json.isObj_setdefault h _ _
  have h1 : ((v.setdefault "current_mileage" .null).setdefault "items"
      (.arr [])).isObj = true :=
    Json.isObj_setdefault h2 _ _
  unfold vehicleBackfilled fixVehicle
  have hm := Json.isSome_get?_setdefault h1 "maintenance" (Json.arr [])
  have hi : ((((v.setdefault "current_mileage" .null).setdefault "items"
      (.arr [])).setdefault "maintenance" (.arr [])).get? "items").isSome = true := by
    rw [Json.get?_setdefault_ne _ (by decide)]
    exact Json.isSome_get?_setdefault h2 "items" _
  have hc : ((((v.setdefault "current_mileage" .null).setdefault "items"
      (.arr [])).setdefault "maintenance" (.arr [])).get?
        "current_mileage").isSome = true := by
    rw [Json.get?_setdefault_ne _ (by decide), Json.get?_setdefault_ne _ (by decide)]
    exact Json.isSome_get?_setdefault h "current_mileage" _
  simp [hm, hi, hc]

/-! ## Theorems: the loader invariant and the save/load round trip -/

theorem isObj_default_data (now : String) : (default_data now).isObj = true := rfl

theorem isObj_defaultVehicle : defaultVehicle.isObj = true := rfl

theorem docOK_eq {d : Json} {vs : List Json} (h : d.get? "vehicles" = some (.arr vs)) :
    docOK d = (!vs.isEmpty && vs.all vehicleBackfilled) := by
  unfold docOK
  rw [h]

theorem docOK_step (r1 : Json) (now : String) (hobj : r1.isObj = true)
    (w : Json) (hw : r1.get? "vehicles" = some w) :
    docOK (
      let r2 := if (r1.getD "vehicles" .null).truthy then r1
                else r1.setKey "vehicles" (.arr [defaultVehicle])
      match r2.getD "vehicles" .null with
      | .arr vs =>
          if vs.all Json.isObj then r2.setKey "vehicles" (.arr (vs.map fixVehicle))
          else default_data now
      | _ => default_data now) = true := by
  have hgd : r1.getD "vehicles" .null = w := Json.getD_of_get? hw
  by_cases ht : w.truthy = true
  · simp only [hgd, ht, if_true]
    cases w with
    | arr vs =>
        by_cases hall : vs.all Json.isObj = true
        · simp only [hall, if_true]
          rw [docOK_eq (Json.get?_setKey_self' hobj _ _)]
          have hne : vs ≠ [] := by
            intro hnil
            rw [hnil] at ht
            simp [Json.truthy] at ht
          have h1 : (vs.map fixVehicle).isEmpty = false := by
            cases vs with
            | nil => exact absurd rfl hne
            | cons a l => rfl
          rw [h1]
          simp only [Bool.not_false, Bool.true_and, List.all_eq_true]
          intro x hx
          obtain ⟨v, hv, rfl⟩ := List.mem_map.mp hx
          exact vehicleBackfilled_fixVehicle (List.all_eq_true.mp hall v hv)
        · simp only [hall, if_false]
          exact docOK_default now
    | null => exact docOK_default now
    | bool b => exact docOK_default now
    | num q => exact docOK_default now
    | str s => exact docOK_default now
    | obj l => exact docOK_default now
  · have htf : w.truthy = false := by simpa using ht
    simp only [hgd, htf, Bool.false_eq_true, if_false]
    have hset : (r1.setKey "vehicles" (.arr [defaultVehicle])).getD "vehicles" .null
        = .arr [defaultVehicle] :=
      Json.getD_of_get? (Json.get?_setKey_self' hobj _ _)
    rw [hset]
    have hfin : docOK ((r1.setKey "vehicles" (.arr [defaultVehicle])).setKey "vehicles"
        (.arr ([defaultVehicle].map fixVehicle))) = true := by
      rw [docOK_eq (Json.get?_setKey_self' (Json.isObj_setKey hobj _ _) _ _)]
      rfl
    exact hfin

theorem docOK_load_dict (kvs : List (String × Json)) (now : String) :
    docOK (load_dict (.obj kvs) now) = true := by
  have hobj1 : ((((Json.obj kvs).setdefault "updated_at" (.str now)).setdefault
      "active_vehicle_id" (.str "maxine-06-maxima")).setdefault "vehicles"
        (.arr [])).isObj = true :=
    Json.isObj_setdefault (Json.isObj_setdefault (Json.isObj_setdefault
      (show (Json.obj kvs).isObj = true from rfl) _ _) _ _) _ _
  have hv : (((((Json.obj kvs).setdefault "updated_at" (.str now)).setdefault
      "active_vehicle_id" (.str "maxine-06-maxima")).setdefault "vehicles"
        (.arr [])).get? "vehicles").isSome = true :=
    Json.isSome_get?_setdefault
      (Json.isObj_setdefault (Json.isObj_setdefault
        (show (Json.obj kvs).isObj = true from rfl) _ _) _ _) "vehicles" _
  obtain ⟨w, hw⟩ := Option.isSome_iff_exists.mp hv
  exact docOK_step _ now hobj1 w hw

theorem fixVehicle_id {v : Json} (h : vehicleKeysOk v = true) : fixVehicle v = v := by
  unfold vehicleKeysOk at h
  simp only [Bool.and_eq_true] at h
  obtain ⟨⟨⟨⟨hobj, hid⟩, hit⟩, hmt⟩, hcm⟩ := h
  unfold fixVehicle
  rw [Json.setdefault_of_isSome hcm, Json.setdefault_of_isSome hit,
      Json.setdefault_of_isSome hmt]

theorem load_dict_of_wf (r : Json) (now2 : String) (vs : List Json)
    (hup : (r.get? "updated_at").isSome = true)
    (hav : (r.get? "active_vehicle_id").isSome = true)
    (hveh : r.get? "vehicles" = some (.arr vs))
    (hempty : vs.isEmpty = false)
    (hall : vs.all Json.isObj = true) :
    load_dict r now2 = r.setKey "vehicles" (.arr (vs.map fixVehicle)) := by
  unfold load_dict
  rw [Json.setdefault_of_isSome hup, Json.setdefault_of_isSome hav,
      Json.setdefault_of_isSome (by rw [hveh]; rfl)]
  dsimp only
  rw [Json.getD_of_get? hveh]
  simp only [Json.truthy, hempty, Bool.not_false, if_true]
  rw [Json.getD_of_get? hveh]
  simp only [hall, if_true]

theorem load_save_roundtrip (D : Json) (now now2 : String)
    (hwf : wellFormedDoc D = true)
    (hav : (D.get? "active_vehicle_id").isSome = true) :
    load_data (.parsed (save_data D now)) now2 = D.setKey "updated_at" (.str now) := by
  unfold wellFormedDoc at hwf
  simp only [Bool.and_eq_true] at hwf
  obtain ⟨⟨hobj, hsch⟩, hveh⟩ := hwf
  cases D with
  | obj kvs => ?_
  | null => simp [Json.isObj] at hobj
  | bool b => simp [Json.isObj] at hobj
  | num q => simp [Json.isObj] at hobj
  | str s => simp [Json.isObj] at hobj
  | arr xs => simp [Json.isObj] at hobj
  obtain ⟨vs, hvs, hempty, hallok⟩ :
      ∃ vs, (Json.obj kvs).get? "vehicles" = some (.arr vs) ∧
        vs.isEmpty = false ∧ vs.all vehicleKeysOk = true := by
    cases hv : (Json.obj kvs).get? "vehicles" with
    | none => rw [hv] at hveh; simp at hveh
    | some w =>
        cases w with
        | arr vs =>
            rw [hv] at hveh
            simp only [Bool.and_eq_true] at hveh
            exact ⟨vs, rfl, by simpa using hveh.1, hveh.2⟩
        | null => rw [hv] at hveh; simp at hveh
        | bool b => rw [hv] at hveh; simp at hveh
        | num q => rw [hv] at hveh; simp at hveh
        | str s => rw [hv] at hveh; simp at hveh
        | obj l => rw [hv] at hveh; simp at hveh
  obtain ⟨q, hq, hq1⟩ :
      ∃ q, (Json.obj kvs).get? "schema" = some (.num q) ∧ q = 1 := by
    cases hs : (Json.obj kvs).get? "schema" with
    | none => rw [hs] at hsch; simp at hsch
    | some w =>
        cases w with
        | num q =>
            rw [hs] at hsch
            exact ⟨q, rfl, by simpa using hsch⟩
        | null => rw [hs] at hsch; simp at hsch
        | bool b => rw [hs] at hsch; simp at hsch
        | str s => rw [hs] at hsch; simp at hsch
        | arr xs => rw [hs] at hsch; simp at hsch
        | obj l => rw [hs] at hsch; simp at hsch
  subst hq1
  have hWobj : ((Json.obj kvs).setKey "updated_at" (.str now)).isObj = true :=
    Json.isObj_setKey (by rfl) _ _
  have hWsch : ((Json.obj kvs).setKey "updated_at" (.str now)).get? "schema"
      = some (.num 1) := by
    rw [Json.get?_setKey_ne _ (by decide)]
    exact hq
  have hWschema1 : schemaIs1 ((Json.obj kvs).setKey "updated_at" (.str now)) = true := by
    unfold schemaIs1
    rw [hWsch]
    rfl
  have hWveh : ((Json.obj kvs).setKey "updated_at" (.str now)).get? "vehicles"
      = some (.arr vs) := by
    rw [Json.get?_setKey_ne _ (by decide)]
    exact hvs
  have hWup : (((Json.obj kvs).setKey "updated_at" (.str now)).get?
      "updated_at").isSome = true := by
    rw [Json.get?_setKey_self' (by rfl)]
    rfl
  have hWav : (((Json.obj kvs).setKey "updated_at" (.str now)).get?
      "active_vehicle_id").isSome = true := by
    rw [Json.get?_setKey_ne _ (by decide)]
    exact hav
  have hallobj : vs.all Json.isObj = true := by
    rw [List.all_eq_true] at hallok ⊢
    intro v hv
    have := hallok v hv
    unfold vehicleKeysOk at this
    simp only [Bool.and_eq_true] at this
    exact this.1.1.1.1
  have hmap : vs.map fixVehicle = vs := by
    have : vs.map fixVehicle = vs.map id := by
      apply List.map_congr_left
      intro v hv
      exact fixVehicle_id (List.all_eq_true.mp hallok v hv)
    rw [this, List.map_id]
  have hld : load_data (.parsed ((Json.obj kvs).setKey "updated_at" (.str now))) now2
      = load_dict ((Json.obj kvs).setKey "updated_at" (.str now)) now2 := by
    show load_data (.parsed (Json.obj (Json.setKey.go kvs "updated_at" (.str now)))) now2 = _
    simp only [load_data]
    rw [show (Json.obj (Json.setKey.go kvs "updated_at" (.str now))).isObj = true from rfl]
    rw [show schemaIs1 (Json.obj (Json.setKey.go kvs "updated_at" (.str now))) = true
      from hWschema1]
    rfl
  show load_data (.parsed ((Json.obj kvs).setKey "updated_at" (.str now))) now2 = _
  rw [hld, load_dict_of_wf _ now2 vs hWup hWav hWveh hempty hallobj, hmap,
      Json.setKey_same hWveh]

/-! ## Claim theorems -/

/-- C1 (amended): for a well-formed Document that also carries
`active_vehicle_id`, reloading the file written by `save` returns the
document unchanged in every field except `updated_at`, whose new value
is the wall-clock stamp taken at save time; it is strictly greater than
the stamp the document carried before exactly when the clock at save
time read strictly later.  (As originally stated the claim fails: the
loader backfills a missing `active_vehicle_id`, and the new stamp is not
strictly greater when the save happens within the same clock second —
see the counterexample.) -/
theorem claim_C1 (D : Json) (now now2 : String)
    (hwf : wellFormedDoc D = true)
    (hav : (D.get? "active_vehicle_id").isSome = true) :
    (load_data (.parsed (save_data D now)) now2).eraseKey "updated_at"
        = D.eraseKey "updated_at" ∧
    (load_data (.parsed (save_data D now)) now2).get? "updated_at"
        = some (.str now) ∧
    ∀ old : String, D.get? "updated_at" = some (.str old) → old < now →
      ∃ s, (load_data (.parsed (save_data D now)) now2).get? "updated_at"
          = some (.str s) ∧ old < s := by
  have hobj : D.isObj = true := by
    unfold wellFormedDoc at hwf
    simp only [Bool.and_eq_true] at hwf
    exact hwf.1.1
  have h := load_save_roundtrip D now now2 hwf hav
  have hup : (load_data (.parsed (save_data D now)) now2).get? "updated_at"
      = some (.str now) := by
    rw [h]
    exact Json.get?_setKey_self' hobj _ _
  refine ⟨?_, hup, ?_⟩
  · rw [h]
    exact Json.eraseKey_setKey D _ _
  · intro old hold hlt
    exact ⟨now, hup, hlt⟩

theorem claim_C1_witness :
    wellFormedDoc (Json.obj [("schema", .num 1),
        ("active_vehicle_id", .str "maxine-06-maxima"),
        ("updated_at", .str "2025-01-01 00:00:00"),
        ("vehicles", .arr [.obj [("id", .str "maxine-06-maxima"),
          ("items", .arr []), ("maintenance", .arr []),
          ("current_mileage", .null)]])]) = true ∧
    (load_data (.parsed (save_data (Json.obj [("schema", .num 1),
        ("active_vehicle_id", .str "maxine-06-maxima"),
        ("updated_at", .str "2025-01-01 00:00:00"),
        ("vehicles", .arr [.obj [("id", .str "maxine-06-maxima"),
          ("items", .arr []), ("maintenance", .arr []),
          ("current_mileage", .null)]])]) "2025-01-02 00:00:00"))
      "2025-01-03 00:00:00").eraseKey "updated_at"
        = (Json.obj [("schema", .num 1),
        ("active_vehicle_id", .str "maxine-06-maxima"),
        ("updated_at", .str "2025-01-01 00:00:00"),
        ("vehicles", .arr [.obj [("id", .str "maxine-06-maxima"),
          ("items", .arr []), ("maintenance", .arr []),
          ("current_mileage", .null)]])]).eraseKey "updated_at" ∧
    ∃ s, (load_data (.parsed (save_data (Json.obj [("schema", .num 1),
        ("active_vehicle_id", .str "maxine-06-maxima"),
        ("updated_at", .str "2025-01-01 00:00:00"),
        ("vehicles", .arr [.obj [("id", .str "maxine-06-maxima"),
          ("items", .arr []), ("maintenance", .arr []),
          ("current_mileage", .null)]])]) "2025-01-02 00:00:00"))
      "2025-01-03 00:00:00").get? "updated_at" = some (.str s) ∧
        "2025-01-01 00:00:00" < s := by
  obtain ⟨h1, h2, h3⟩ := claim_C1 (Json.obj [("schema", .num 1),
        ("active_vehicle_id", .str "maxine-06-maxima"),
        ("updated_at", .str "2025-01-01 00:00:00"),
        ("vehicles", .arr [.obj [("id", .str "maxine-06-maxima"),
          ("items", .arr []), ("maintenance", .arr []),
          ("current_mileage", .null)]])])
      "2025-01-02 00:00:00" "2025-01-03 00:00:00" rfl rfl
  have hlt : ("2025-01-01 00:00:00" : String) < "2025-01-02 00:00:00" := by
    rw [String.lt_iff_toList_lt]
    decide
  obtain ⟨s, hs, hlt2⟩ := h3 "2025-01-01 00:00:00" rfl hlt
  exact ⟨rfl, h1, s, hs, hlt2⟩

/-- C1 counterexample to the claim as stated: a well-formed Document
(in the claim's sense) that lacks `active_vehicle_id`, saved at a clock
reading equal to its own `updated_at`.  The reloaded document differs
from the original outside the `updated_at` field (the loader added
`active_vehicle_id`), and the reloaded stamp equals, rather than
strictly exceeds, the one carried before the save. -/
theorem claim_C1_counterexample :
    wellFormedDoc (Json.obj [("schema", .num 1),
        ("updated_at", .str "2025-01-01 00:00:00"),
        ("vehicles", .arr [.obj [("id", .str "maxine-06-maxima"),
          ("items", .arr []), ("maintenance", .arr []),
          ("current_mileage", .null)]])]) = true ∧
    ((load_data (.parsed (save_data (Json.obj [("schema", .num 1),
        ("updated_at", .str "2025-01-01 00:00:00"),
        ("vehicles", .arr [.obj [("id", .str "maxine-06-maxima"),
          ("items", .arr []), ("maintenance", .arr []),
          ("current_mileage", .null)]])]) "2025-01-01 00:00:00"))
      "2025-01-01 00:00:00").eraseKey "updated_at"
        ≠ (Json.obj [("schema", .num 1),
        ("updated_at", .str "2025-01-01 00:00:00"),
        ("vehicles", .arr [.obj [("id", .str "maxine-06-maxima"),
          ("items", .arr []), ("maintenance", .arr []),
          ("current_mileage", .null)]])]).eraseKey "updated_at") ∧
    (load_data (.parsed (save_data (Json.obj [("schema", .num 1),
        ("updated_at", .str "2025-01-01 00:00:00"),
        ("vehicles", .arr [.obj [("id", .str "maxine-06-maxima"),
          ("items", .arr []), ("maintenance", .arr []),
          ("current_mileage", .null)]])]) "2025-01-01 00:00:00"))
      "2025-01-01 00:00:00").get? "updated_at"
        = some (.str "2025-01-01 00:00:00") ∧
    ¬ ("2025-01-01 00:00:00" : String) < "2025-01-01 00:00:00" := by
  refine ⟨rfl, ?_, rfl, lt_irrefl _⟩
  intro h
  have h2 := congrArg (fun j => j.get? "active_vehicle_id") h
  simp only at h2
  have hl : ((load_data (.parsed (save_data (Json.obj [("schema", .num 1),
        ("updated_at", .str "2025-01-01 00:00:00"),
        ("vehicles", .arr [.obj [("id", .str "maxine-06-maxima"),
          ("items", .arr []), ("maintenance", .arr []),
          ("current_mileage", .null)]])]) "2025-01-01 00:00:00"))
      "2025-01-01 00:00:00").eraseKey "updated_at").get? "active_vehicle_id"
        = some (.str "maxine-06-maxima") := rfl
  rw [hl] at h2
  exact Option.noConfusion h2

/-- C2: loading a missing file, unparsable bytes, a non-list non-dict
top level, or a dict whose schema tag is missing or not `1`, returns the
default Document; the embedded loader is total, so it never raises. -/
theorem claim_C2 (now : String) :
    load_data .missing now = default_data now ∧
    load_data .unparsable now = default_data now ∧
    ∀ j : Json, j.isArr = false → (j.isObj = false ∨ schemaIs1 j = false) →
      load_data (.parsed j) now = default_data now := by
  refine ⟨rfl, rfl, ?_⟩
  intro j hna h
  cases j with
  | arr xs => simp [Json.isArr] at hna
  | obj kvs =>
      rcases h with h | h
      · simp [Json.isObj] at h
      · simp [load_data, h]
  | null => rfl
  | bool b => rfl
  | num q => rfl
  | str s => rfl

theorem claim_C2_witness :
    (Json.str "not a document").isArr = false ∧
    ((Json.str "not a document").isObj = false ∨
      schemaIs1 (.str "not a document") = false) ∧
    load_data (.parsed (.str "not a document")) "t" = default_data "t" :=
  ⟨rfl, Or.inl rfl, (claim_C2 "t").2.2 (.str "not a document") rfl (Or.inl rfl)⟩

/-- C3 (amended): whatever is on disk, the loaded document has a
non-empty `vehicles` sequence whose entries all carry the `items`,
`maintenance` and `current_mileage` keys.  (The claim's parenthetical
types are not guaranteed: a key already present on disk keeps its
on-disk value whatever its type — see the counterexample, where `items`
is the number `5`.) -/
theorem claim_C3 (disk : DiskFile) (now : String) :
    docOK (load_data disk now) = true := by
  cases disk with
  | missing => exact docOK_default now
  | unparsable => exact docOK_default now
  | parsed raw =>
      cases raw with
      | arr items => rfl
      | obj kvs =>
          by_cases h : schemaIs1 (.obj kvs) = true
          · have heq : load_data (.parsed (.obj kvs)) now = load_dict (.obj kvs) now := by
              simp [load_data, Json.isObj, h]
            rw [heq]
            exact docOK_load_dict kvs now
          · have heq : load_data (.parsed (.obj kvs)) now = default_data now := by
              simp [load_data, Json.isObj, h]
            rw [heq]
            exact docOK_default now
      | null => exact docOK_default now
      | bool b => exact docOK_default now
      | num q => exact docOK_default now
      | str s => exact docOK_default now

/-- C3 counterexample to the claim as stated: a schema-1 document whose
single vehicle stores `"items": 5`.  Loading keeps the number `5` in the
`items` slot (setdefault only fills absent keys), so `items` is not a
sequence. -/
theorem claim_C3_counterexample :
    (load_data (.parsed (.obj [("schema", .num 1),
        ("vehicles", .arr [.obj [("items", .num 5)]])])) "t").get? "vehicles"
      = some (.arr [.obj [("items", .num 5), ("current_mileage", .null),
          ("maintenance", .arr [])]])
    ∧ (Json.num 5).isArr = false := ⟨rfl, rfl⟩

/-- C4: a bare top-level list `L` loads as a Document with exactly one
Vehicle whose `items` is `L` and whose `maintenance` is empty; every
other field of the vehicle and of the document agrees with the default
Document. -/
theorem claim_C4 (now : String) (items : List Json) :
    ∃ v : Json,
      (load_data (.parsed (.arr items)) now).get? "vehicles" = some (.arr [v]) ∧
      v.get? "items" = some (.arr items) ∧
      v.get? "maintenance" = some (.arr []) ∧
      (∀ k, k ≠ "items" → v.get? k = defaultVehicle.get? k) ∧
      (∀ k, k ≠ "vehicles" →
        (load_data (.parsed (.arr items)) now).get? k = (default_data now).get? k) := by
  refine ⟨defaultVehicle.setKey "items" (.arr items), ?_, ?_, ?_, ?_, ?_⟩
  · show ((((default_data now).setKey "vehicles"
        (.arr [defaultVehicle.setKey "items" (.arr items)])).setKey
          "updated_at" (.str now))).get? "vehicles" = _
    rw [Json.get?_setKey_ne _ (by decide), Json.get?_setKey_self' (isObj_default_data now)]
  · exact Json.get?_setKey_self' isObj_defaultVehicle _ _
  · rw [Json.get?_setKey_ne _ (by decide)]
    rfl
  · intro k hk
    exact Json.get?_setKey_ne _ hk _
  · intro k hk
    show ((((default_data now).setKey "vehicles" _).setKey "updated_at" _)).get? k = _
    by_cases hu : k = "updated_at"
    · subst hu
      rw [Json.get?_setKey_self' (Json.isObj_setKey (isObj_default_data now) _ _)]
      rfl
    · rw [Json.get?_setKey_ne _ hu, Json.get?_setKey_ne _ hk]

theorem claim_C4_witness :
    ∃ v : Json,
      (load_data (.parsed (.arr [.obj [("name", .str "Coilovers")]])) "t").get?
          "vehicles" = some (.arr [v]) ∧
      v.get? "items" = some (.arr [.obj [("name", .str "Coilovers")]]) ∧
      v.get? "maintenance" = some (.arr []) ∧
      v.get? "id" = defaultVehicle.get? "id" ∧
      (load_data (.parsed (.arr [.obj [("name", .str "Coilovers")]])) "t").get?
          "schema" = (default_data "t").get? "schema" := by
  obtain ⟨v, h1, h2, h3, h4, h5⟩ := claim_C4 "t" [.obj [("name", .str "Coilovers")]]
  exact ⟨v, h1, h2, h3, h4 "id" (by decide), h5 "schema" (by decide)⟩

/-- C5: the maintenance-due computation.  If `last_miles` or
`interval_miles` is blank or fails integer parsing, both the due cell
and the remaining cell are empty; otherwise the due mileage is their
sum, and when the current mileage is a known integer the remainder is
reported plainly when non-negative and as an overdue amount (absolute
value) when negative; with no current mileage the remaining cell stays
empty though the due mileage shows.  The spec's two arithmetic examples
are included. -/
theorem claim_C5 (l i : String) (c : Option Int) :
    ((pyStrip l = "" ∨ pyStrip i = "" ∨ pyInt? (normalize_int l) = none ∨
        pyInt? (normalize_int i) = none) →
      compute_due l i c = (none, none)) ∧
    (∀ a b : Int, pyInt? (normalize_int l) = some a →
        pyInt? (normalize_int i) = some b →
        pyStrip l ≠ "" → pyStrip i ≠ "" →
      (compute_due l i c).1 = some (a + b) ∧
      (c = none → (compute_due l i c).2 = none) ∧
      (∀ m : Int, c = some m →
        (compute_due l i c).2 =
          some (if 0 ≤ a + b - m then .plain (a + b - m)
                else .overdue (-(a + b - m))))) ∧
    compute_due "100000" "3000" (some 102500) = (some 103000, some (.plain 500)) ∧
    compute_due "100000" "3000" (some 104000) = (some 103000, some (.overdue 1000)) := by
  refine ⟨?_, ?_, rfl, rfl⟩
  · intro h
    unfold compute_due
    rcases h with h | h | h | h
    · simp [h]
    · simp [h]
    · by_cases hc : pyStrip l ≠ "" ∧ pyStrip i ≠ ""
      · simp only [if_pos hc, h]
      · simp only [if_neg hc]
    · by_cases hc : pyStrip l ≠ "" ∧ pyStrip i ≠ ""
      · rw [if_pos hc, h]
        cases pyInt? (normalize_int l) <;> rfl
      · simp only [if_neg hc]
  · intro a b ha hb hl hi
    unfold compute_due
    rw [if_pos ⟨hl, hi⟩, ha, hb]
    refine ⟨rfl, ?_, ?_⟩
    · intro hc
      rw [hc]
    · intro m hc
      rw [hc]

theorem claim_C5_witness :
    (compute_due "100000" "3000" (some 102500)).1 = some 103000 ∧
    (compute_due "100000" "3000" none).2 = none ∧
    compute_due "" "3000" (some 1) = (none, none) := by
  have h1 := (claim_C5 "100000" "3000" (some 102500)).2.1 100000 3000
    rfl rfl (by decide) (by decide)
  have h2 := (claim_C5 "100000" "3000" none).2.1 100000 3000
    rfl rfl (by decide) (by decide)
  have h3 := (claim_C5 "" "3000" (some 1)).1 (Or.inl rfl)
  refine ⟨?_, h2.2.1 rfl, h3⟩
  have := h1.1
  rw [show (100000 : Int) + 3000 = 103000 by norm_num] at this
  exact this

/-- C6: marking a maintenance task done with no known current mileage
reports the precondition dialog and leaves the task entirely unchanged;
with a known integer mileage it sets `last_date` to today, `last_miles`
to the stringified mileage and stamps `updated_at`, leaving every other
task field unchanged. -/
theorem claim_C6 (cur : Option Int) (task : Json) (today now : String)
    (hobj : task.isObj = true) :
    (cur = none → mark_maintenance_done cur task today now
        = ⟨task, some "Set current mileage at the top first."⟩) ∧
    (∀ c : Int, cur = some c →
      (mark_maintenance_done cur task today now).err = none ∧
      (mark_maintenance_done cur task today now).task.get? "last_date"
          = some (.str today) ∧
      (mark_maintenance_done cur task today now).task.get? "last_miles"
          = some (.str (toString c)) ∧
      (mark_maintenance_done cur task today now).task.get? "updated_at"
          = some (.str now) ∧
      ∀ k, k ≠ "last_date" → k ≠ "last_miles" → k ≠ "updated_at" →
        (mark_maintenance_done cur task today now).task.get? k = task.get? k) := by
  constructor
  · intro h
    rw [h]
    rfl
  · intro c hc
    subst hc
    have h1 : (task.setKey "last_date" (.str today)).isObj = true :=
      Json.isObj_setKey hobj _ _
    have h2 : ((task.setKey "last_date" (.str today)).setKey "last_miles"
        (.str (toString c))).isObj = true := Json.isObj_setKey h1 _ _
    refine ⟨rfl, ?_, ?_, ?_, ?_⟩
    · show ((((task.setKey "last_date" (.str today)).setKey "last_miles"
        (.str (toString c))).setKey "updated_at" (.str now))).get? "last_date" = _
      rw [Json.get?_setKey_ne _ (by decide), Json.get?_setKey_ne _ (by decide),
        Json.get?_setKey_self' hobj]
    · show ((((task.setKey "last_date" (.str today)).setKey "last_miles"
        (.str (toString c))).setKey "updated_at" (.str now))).get? "last_miles" = _
      rw [Json.get?_setKey_ne _ (by decide), Json.get?_setKey_self' h1]
    · exact Json.get?_setKey_self' h2 _ _
    · intro k hk1 hk2 hk3
      show ((((task.setKey "last_date" (.str today)).setKey "last_miles"
        (.str (toString c))).setKey "updated_at" (.str now))).get? k = _
      rw [Json.get?_setKey_ne _ hk3, Json.get?_setKey_ne _ hk2,
        Json.get?_setKey_ne _ hk1]

theorem claim_C6_witness :
    mark_maintenance_done none (.obj [("task", .str "Oil change"),
        ("last_miles", .str "90000")]) "2025-05-05" "2025-05-05 10:00:00"
      = ⟨.obj [("task", .str "Oil change"), ("last_miles", .str "90000")],
          some "Set current mileage at the top first."⟩ ∧
    (mark_maintenance_done (some 150000) (.obj [("task", .str "Oil change"),
        ("last_miles", .str "90000")]) "2025-05-05" "2025-05-05 10:00:00").err
      = none ∧
    (mark_maintenance_done (some 150000) (.obj [("task", .str "Oil change"),
        ("last_miles", .str "90000")]) "2025-05-05"
        "2025-05-05 10:00:00").task.get? "last_miles" = some (.str "150000") ∧
    (mark_maintenance_done (some 150000) (.obj [("task", .str "Oil change"),
        ("last_miles", .str "90000")]) "2025-05-05"
        "2025-05-05 10:00:00").task.get? "task" = some (.str "Oil change") := by
  obtain ⟨hfail, hok⟩ := claim_C6 (some 150000) (.obj [("task", .str "Oil change"),
      ("last_miles", .str "90000")]) "2025-05-05" "2025-05-05 10:00:00" rfl
  obtain ⟨he, hd, hm, hu, hframe⟩ := hok 150000 rfl
  obtain ⟨hfail2, -⟩ := claim_C6 none (.obj [("task", .str "Oil change"),
      ("last_miles", .str "90000")]) "2025-05-05" "2025-05-05 10:00:00" rfl
  refine ⟨hfail2 rfl, he, ?_, ?_⟩
  · rw [hm]
    rfl
  · rw [hframe "task" (by decide) (by decide) (by decide)]
    rfl

/-- C7 (amended): the atomic writer creates the destination directory,
writes to a scratch file in the target's directory, and renames it over
the destination; on the all-clear scenario the target holds exactly the
new document and no temp file remains.  On any failing scenario the
error propagates and the previous destination content is untouched, and
the temp file is removed whenever the unlink itself is permitted.  (As
originally stated the claim fails: the `finally` block swallows unlink
errors, so when the unlink also fails the temp file survives — see the
counterexample.) -/
theorem claim_C7 (sc : WScenario) (st : WState) (data : Json)
    (htemp : st.temp = false) :
    (sc.mkdirFails = false → sc.mkstempFails = false → sc.dumpFails = false →
      sc.replaceFails = false →
      safe_write_json sc st data
        = (false, { dirExists := true, target := some data, temp := false })) ∧
    ((sc.mkdirFails = true ∨ sc.mkstempFails = true ∨ sc.dumpFails = true ∨
        sc.replaceFails = true) → (safe_write_json sc st data).1 = true) ∧
    ((safe_write_json sc st data).1 = true →
      (safe_write_json sc st data).2.target = st.target) ∧
    ((safe_write_json sc st data).1 = true → sc.unlinkFails = false →
      (safe_write_json sc st data).2.temp = false) ∧
    (sc.mkdirFails = false → (safe_write_json sc st data).2.dirExists = true) := by
  obtain ⟨m1, m2, m3, m4, m5⟩ := sc
  obtain ⟨d1, d2, d3⟩ := st
  simp only at htemp
  subst htemp
  cases m1 <;> cases m2 <;> cases m3 <;> cases m4 <;> cases m5 <;>
    simp [safe_write_json]

theorem claim_C7_witness :
    (⟨false, false, false, false, false⟩ : WScenario).mkdirFails = false ∧
    safe_write_json ⟨false, false, false, false, false⟩
        ⟨false, some (.str "old"), false⟩ (.str "new")
      = (false, { dirExists := true, target := some (.str "new"), temp := false }) ∧
    (safe_write_json ⟨false, false, true, false, false⟩
        ⟨false, some (.str "old"), false⟩ (.str "new")).1 = true ∧
    (safe_write_json ⟨false, false, true, false, false⟩
        ⟨false, some (.str "old"), false⟩ (.str "new")).2.target
      = some (.str "old") ∧
    (safe_write_json ⟨false, false, true, false, false⟩
        ⟨false, some (.str "old"), false⟩ (.str "new")).2.temp = false := by
  obtain ⟨hok, -, -, -, -⟩ := claim_C7 ⟨false, false, false, false, false⟩
    ⟨false, some (.str "old"), false⟩ (.str "new") rfl
  obtain ⟨-, hraise, htarget, htemp, -⟩ := claim_C7 ⟨false, false, true, false, false⟩
    ⟨false, some (.str "old"), false⟩ (.str "new") rfl
  exact ⟨rfl, hok rfl rfl rfl rfl, hraise (Or.inr (Or.inr (Or.inl rfl))),
    htarget rfl, htemp rfl rfl⟩

/-- C7 counterexample to the claim as stated: when the write to the temp
file fails and the unlink in the `finally` block fails as well, the
error still propagates and the destination is intact, but the temporary
file is not removed. -/
theorem claim_C7_counterexample :
    (safe_write_json ⟨false, false, true, false, true⟩
        ⟨true, some (.str "old"), false⟩ (.str "new")).1 = true ∧
    (safe_write_json ⟨false, false, true, false, true⟩
        ⟨true, some (.str "old"), false⟩ (.str "new")).2.temp = true ∧
    (safe_write_json ⟨false, false, true, false, true⟩
        ⟨true, some (.str "old"), false⟩ (.str "new")).2.target
      = some (.str "old") := ⟨rfl, rfl, rfl⟩

/-- C8 (amended): when the settings file holds a schema-1 dict, the
loaded `ui_scale` is the stored value's `float(...)` coercion when that
coercion succeeds — whatever its sign — and the configured default when
it fails.  (As originally stated the claim fails: the code performs no
positivity check, so a stored value that parses to a non-positive float
is kept — see the counterexample.) -/
theorem claim_C8 (raw : Json) (now : String)
    (hobj : raw.isObj = true) (hsch : schemaIs1 raw = true) :
    (load_settings (.parsed raw) now).get? "ui_scale"
      = some (.num (match pyFloat? (raw.getD "ui_scale" (.num DEFAULT_UI_SCALE)) with
          | some q => q
          | none => DEFAULT_UI_SCALE)) := by
  unfold load_settings
  dsimp only
  rw [if_pos (show (raw.isObj && schemaIs1 raw) = true by rw [hobj, hsch]; rfl)]
  have hm : (mergeKnown (default_settings now) raw).get? "ui_scale"
      = some (raw.getD "ui_scale" (.num DEFAULT_UI_SCALE)) := rfl
  have hmobj : (mergeKnown (default_settings now) raw).isObj = true := rfl
  have h1obj : ((mergeKnown (default_settings now) raw).setKey "updated_at"
      (.str now)).isObj = true := Json.isObj_setKey hmobj _ _
  have h1 : ((mergeKnown (default_settings now) raw).setKey "updated_at"
      (.str now)).get? "ui_scale"
        = some (raw.getD "ui_scale" (.num DEFAULT_UI_SCALE)) := by
    rw [Json.get?_setKey_ne _ (by decide)]
    exact hm
  set D1 := (mergeKnown (default_settings now) raw).setKey "updated_at" (.str now)
    with hD1
  set D2 := if themeOk (D1.getD "theme" .null) = true then D1
            else D1.setKey "theme" (.str "dark") with hD2
  have h2obj : D2.isObj = true := by
    rw [hD2]
    split
    · exact h1obj
    · exact Json.isObj_setKey h1obj _ _
  have h2 : D2.get? "ui_scale" = some (raw.getD "ui_scale" (.num DEFAULT_UI_SCALE)) := by
    rw [hD2]
    split
    · exact h1
    · rw [Json.get?_setKey_ne _ (by decide)]
      exact h1
  rw [Json.getD_of_get? h2]
  cases hf : pyFloat? (raw.getD "ui_scale" (.num DEFAULT_UI_SCALE)) with
  | some q =>
      dsimp only
      cases hi : pyIntJson? ((D2.setKey "ui_scale" (.num q)).getD "autosave_ms" .null) with
      | some nn =>
          dsimp only
          rw [Json.get?_setKey_ne _ (by decide), Json.get?_setKey_ne _ (by decide),
            Json.get?_setKey_self' h2obj]
      | none =>
          dsimp only
          rw [Json.get?_setKey_ne _ (by decide), Json.get?_setKey_ne _ (by decide),
            Json.get?_setKey_self' h2obj]
  | none =>
      dsimp only
      cases hi : pyIntJson? ((D2.setKey "ui_scale"
          (.num DEFAULT_UI_SCALE)).getD "autosave_ms" .null) with
      | some nn =>
          dsimp only
          rw [Json.get?_setKey_ne _ (by decide), Json.get?_setKey_ne _ (by decide),
            Json.get?_setKey_self' h2obj]
      | none =>
          dsimp only
          rw [Json.get?_setKey_ne _ (by decide), Json.get?_setKey_ne _ (by decide),
            Json.get?_setKey_self' h2obj]

theorem claim_C8_witness :
    (Json.obj [("schema", .num 1), ("theme", .str "blue"),
        ("ui_scale", .str "oops")]).isObj = true ∧
    schemaIs1 (.obj [("schema", .num 1), ("theme", .str "blue"),
        ("ui_scale", .str "oops")]) = true ∧
    (load_settings (.parsed (.obj [("schema", .num 1), ("theme", .str "blue"),
        ("ui_scale", .str "oops")])) "t").get? "ui_scale"
      = some (.num DEFAULT_UI_SCALE) := by
  refine ⟨rfl, rfl, ?_⟩
  have h := claim_C8 (.obj [("schema", .num 1), ("theme", .str "blue"),
      ("ui_scale", .str "oops")]) "t" rfl rfl
  rw [h]
  rfl

/-- C8 counterexample to the claim as stated: storing `"ui_scale": -2`
(which parses as a float but is not positive) yields a loaded
`ui_scale` of `-2`, not the configured default. -/
theorem claim_C8_counterexample :
    (load_settings (.parsed (.obj [("schema", .num 1), ("ui_scale", .num (-2))]))
        "t").get? "ui_scale" = some (.num (-2)) ∧
    ¬ (0 : ℚ) < -2 ∧ (Json.num (-2) : Json) ≠ .num DEFAULT_UI_SCALE := by
  refine ⟨rfl, by norm_num, ?_⟩
  intro h
  exact absurd (Json.num.inj h) (by decide)

/-- C9: the attachment path allocator returns the first candidate in the
`<base>_<stamp><ext>`, `<base>_<stamp>_1<ext>`, `<base>_<stamp>_2<ext>`,
… sequence that does not name an existing path, so its result never
names an existing file; a second allocation for the same source and
stamp, performed after the first result has been copied into place,
yields a distinct path and overwrites neither the first copy nor any
pre-existing file. -/
theorem claim_C9 (fs : List String) (d n s e : String) :
    (∃ k, unique_dest_path fs d n s e = cand d n s e k ∧
      ∀ j, j < k → cand d n s e j ∈ fs) ∧
    unique_dest_path fs d n s e ∉ fs ∧
    unique_dest_path ((unique_dest_path fs d n s e) :: fs) d n s e
        ≠ unique_dest_path fs d n s e ∧
    unique_dest_path ((unique_dest_path fs d n s e) :: fs) d n s e ∉ fs := by
  obtain ⟨k, hk, hnot, hmin⟩ := unique_dest_path_spec fs d n s e
  obtain ⟨k2, hk2, hnot2, hmin2⟩ :=
    unique_dest_path_spec ((unique_dest_path fs d n s e) :: fs) d n s e
  refine ⟨⟨k, hk, hmin⟩, hnot, ?_, ?_⟩
  · intro heq
    refine hnot2 ?_
    rw [heq]
    exact List.mem_cons_self _ _
  · intro hmem
    exact hnot2 (List.mem_cons_of_mem _ hmem)

/-- C10: `save_data` and `save_settings` mutate the caller's in-memory
mapping in place: exactly the `updated_at` field is overwritten with the
save-time stamp and every other field is untouched; the stamped mapping
is computed before the disk write, so it is independent of the write
scenario and persists even when the write fails. -/
theorem claim_C10 (doc settings : Json) (now : String) (sc : WScenario)
    (st : WState) (hdoc : doc.isObj = true) (hset : settings.isObj = true) :
    ((save_data_fs doc now sc st).1.get? "updated_at" = some (.str now) ∧
     (∀ k, k ≠ "updated_at" →
        (save_data_fs doc now sc st).1.get? k = doc.get? k) ∧
     (∀ sc' st', (save_data_fs doc now sc st).1
        = (save_data_fs doc now sc' st').1)) ∧
    ((save_settings_fs settings now sc st).1.get? "updated_at" = some (.str now) ∧
     (∀ k, k ≠ "updated_at" →
        (save_settings_fs settings now sc st).1.get? k = settings.get? k) ∧
     (∀ sc' st', (save_settings_fs settings now sc st).1
        = (save_settings_fs settings now sc' st').1)) := by
  refine ⟨⟨?_, ?_, ?_⟩, ?_, ?_, ?_⟩
  · exact Json.get?_setKey_self' hdoc _ _
  · intro k hk
    exact Json.get?_setKey_ne _ hk _
  · intro sc' st'
    rfl
  · exact Json.get?_setKey_self' hset _ _
  · intro k hk
    exact Json.get?_setKey_ne _ hk _
  · intro sc' st'
    rfl

theorem claim_C10_witness :
    (save_data_fs (.obj [("schema", .num 1), ("vehicles", .arr [])]) "2025-06-06 12:00:00"
        ⟨false, false, true, false, false⟩ ⟨true, none, false⟩).1.get? "updated_at"
      = some (.str "2025-06-06 12:00:00") ∧
    (save_data_fs (.obj [("schema", .num 1), ("vehicles", .arr [])]) "2025-06-06 12:00:00"
        ⟨false, false, true, false, false⟩ ⟨true, none, false⟩).1.get? "schema"
      = some (.num 1) ∧
    (save_settings_fs (.obj [("theme", .str "dark")]) "2025-06-06 12:00:00"
        ⟨false, false, true, false, false⟩ ⟨true, none, false⟩).1.get? "theme"
      = some (.str "dark") := by
  obtain ⟨⟨h1, h2, -⟩, -, h4, -⟩ := claim_C10
    (.obj [("schema", .num 1), ("vehicles", .arr [])]) (.obj [("theme", .str "dark")])
    "2025-06-06 12:00:00" ⟨false, false, true, false, false⟩ ⟨true, none, false⟩ rfl rfl
  refine ⟨h1, ?_, ?_⟩
  · rw [h2 "schema" (by decide)]
    rfl
  · rw [h4 "theme" (by decide)]
    rfl
